import Mathlib

/-!
Verification development for the Playready Sports order-management backend
(`app.py`). The Flask handlers are shallowly embedded as pure functions over
an explicit database state `DB`; sessions are `Option Session`; timestamps
are modelled as integers; monetary values (Python floats) are modelled as
rationals. A Python statement that would raise an unhandled exception (for
example an attribute access on `None`, or a comparison between `None` and a
`datetime`) is modelled by a distinguished `crash` result.
-/

namespace Playready

/-- Timestamps (`datetime` values) are modelled as integers. -/
abbrev Time := Int

/-- Row of the `User` model. -/
structure User where
  id : Nat
  phone : String
  name : Option String
  email : Option String
  password_hash : String
  role : String
  created_at : Time
  deriving DecidableEq, Repr

/-- Row of the `Partner` model. -/
structure Partner where
  id : Nat
  user_id : Nat
  business_name : String
  address : String
  city : String
  pincode : String
  gst_number : Option String
  bank_account : String
  ifsc_code : String
  status : String
  commission_rate : ℚ
  rating : ℚ
  total_orders : Nat
  created_at : Time
  deriving DecidableEq, Repr

/-- Row of the `Service` model. -/
structure Service where
  id : Nat
  name : String
  category : String
  base_price : ℚ
  description : String
  image_url : Option String
  is_active : Bool
  deriving DecidableEq, Repr

/-- Row of the `Order` model. -/
structure Order where
  id : Nat
  order_number : String
  customer_id : Nat
  partner_id : Option Nat
  service_id : Nat
  racquet_type : Option String
  string_type : Option String
  tension : Option String
  pickup_address : Option String
  pickup_slot : Time
  base_price : ℚ
  string_price : ℚ
  discount : ℚ
  total_price : ℚ
  status : String
  payment_status : String
  payment_method : String
  created_at : Time
  updated_at : Time
  completed_at : Option Time
  deriving DecidableEq, Repr

/-- Row of the `Coupon` model. `valid_from`, `valid_until`, `usage_limit` and
`max_discount` are nullable columns, hence `Option`. -/
structure Coupon where
  id : Nat
  code : String
  discount_type : String
  discount_value : ℚ
  min_order_value : ℚ
  max_discount : Option ℚ
  valid_from : Option Time
  valid_until : Option Time
  usage_limit : Option Nat
  usage_count : Nat
  is_active : Bool
  deriving DecidableEq, Repr

/-- The whole relational store. -/
structure DB where
  users : List User
  partners : List Partner
  services : List Service
  orders : List Order
  coupons : List Coupon
  deriving DecidableEq, Repr

/-- A Flask session that carries `user_id` and `role` (set together at
registration/login); `none` models a request with no session. -/
structure Session where
  user_id : Nat
  role : String
  deriving DecidableEq, Repr

/-! ### Query helpers (ORM lookups) -/

/-- Embeds `Service.query.get(service_id)` — primary-key lookup. -/
def findService (services : List Service) (sid : Nat) : Option Service :=
  services.find? (fun s => s.id == sid)

/-- Embeds `User.query.get(user_id)` — primary-key lookup. -/
def findUser (users : List User) (uid : Nat) : Option User :=
  users.find? (fun u => u.id == uid)

/-- Embeds `Order.query.get(order_id)` — primary-key lookup. -/
def findOrder (orders : List Order) (oid : Nat) : Option Order :=
  orders.find? (fun o => o.id == oid)

/-- Embeds `Partner.query.filter_by(user_id=...).first()`. -/
def findPartnerByUser (partners : List Partner) (uid : Nat) : Option Partner :=
  partners.find? (fun p => p.user_id == uid)

/-- Embeds `Coupon.query.filter_by(code=..., is_active=True).first()`. -/
def findCoupon (coupons : List Coupon) (code : String) : Option Coupon :=
  coupons.find? (fun c => c.code == code && c.is_active)

/-- In-place mutation of the first row matched by a `find?`-style query:
replace the first element satisfying `p` by its image under `f`. -/
def mapFirst (p : α → Bool) (f : α → α) : List α → List α
  | [] => []
  | x :: xs => if p x then f x :: xs else x :: mapFirst p f xs

/-- Embeds `coupon.usage_count += 1` on the coupon object returned by `findCoupon`. -/
def incCouponUsage (coupons : List Coupon) (code : String) : List Coupon :=
  mapFirst (fun c => c.code == code && c.is_active)
    (fun c => { c with usage_count := c.usage_count + 1 }) coupons

/-! ### Pricing / discount computation (`create_order`, lines 239–256) -/

/-- Embeds `if coupon.max_discount: discount = min(discount, coupon.max_discount)` —
Python truthiness: a `NULL` or `0` cap is no cap. -/
def applyCap (md : Option ℚ) (d : ℚ) : ℚ :=
  match md with
  | none => d
  | some m => if m = 0 then d else min d m

/-- The discount computed inside `create_order` for an applicable coupon:
percentage of (base + string add-on) capped at `max_discount`, or the raw
fixed value for any other `discount_type`. -/
def computeDiscount (c : Coupon) (base_price string_price : ℚ) : ℚ :=
  if c.discount_type = "percentage" then
    applyCap c.max_discount ((base_price + string_price) * (c.discount_value / 100))
  else
    c.discount_value

/-- The coupon block of `create_order` (lines 244–254). Returns the discount
together with the updated coupon table, or `none` when the Python code would
raise (`coupon.valid_until > datetime.utcnow()` with `valid_until = NULL` is a
`TypeError`). A missing, empty (falsy), unknown, inactive or expired coupon
code yields discount 0 and no table change. -/
def couponStep (coupons : List Coupon) (coupon_code : Option String)
    (base_price string_price : ℚ) (now : Time) : Option (ℚ × List Coupon) :=
  match coupon_code with
  | none => some (0, coupons)
  | some code =>
    if code = "" then some (0, coupons)
    else
      match findCoupon coupons code with
      | none => some (0, coupons)
      | some c =>
        match c.valid_until with
        | none => none
        | some vu =>
          if now < vu then
            some (computeDiscount c base_price string_price, incCouponUsage coupons code)
          else
            some (0, coupons)

/-! ### POST /api/orders (`create_order`, lines 225–282) -/

/-- JSON body of `POST /api/orders`; optional keys are `Option`s
(`data.get(...)`), `pickup_slot` is required and assumed well-formed. -/
structure OrderRequest where
  service_id : Nat
  racquet_type : Option String
  string_type : Option String
  tension : Option String
  pickup_address : Option String
  pickup_slot : Time
  string_price : Option ℚ
  coupon_code : Option String
  payment_method : Option String
  deriving DecidableEq, Repr

/-- Outcome of `create_order`. -/
inductive CreateOrderRes where
  | notAuthenticated                    -- 401 Not authenticated
  | serviceNotFound                     -- 404 Service not found
  | crash                               -- unhandled exception (HTTP 500)
  | created (order : Order) (db : DB)   -- 201, row inserted and committed
  deriving DecidableEq, Repr

/-- HTTP status of a `create_order` outcome. -/
def CreateOrderRes.statusCode : CreateOrderRes → Nat
  | .notAuthenticated => 401
  | .serviceNotFound => 404
  | .crash => 500
  | .created _ _ => 201

/-- Embeds `create_order` (app.py lines 225–282). `orderNumber` stands for the
generated `PLR...` string and `newId` for the autoincrement primary key. -/
def create_order (db : DB) (sess : Option Session) (req : OrderRequest)
    (now : Time) (orderNumber : String) (newId : Nat) : CreateOrderRes :=
  match sess with
  | none => .notAuthenticated
  | some s =>
    match findService db.services req.service_id with
    | none => .serviceNotFound
    | some service =>
      let base_price := service.base_price
      let string_price := (req.string_price).getD 0
      match couponStep db.coupons req.coupon_code base_price string_price now with
      | none => .crash
      | some (discount, coupons') =>
        let total_price := base_price + string_price - discount
        let order : Order :=
          { id := newId
            order_number := orderNumber
            customer_id := s.user_id
            partner_id := none
            service_id := req.service_id
            racquet_type := req.racquet_type
            string_type := req.string_type
            tension := req.tension
            pickup_address := req.pickup_address
            pickup_slot := req.pickup_slot
            base_price := base_price
            string_price := string_price
            discount := discount
            total_price := total_price
            status := "pending"
            payment_status := "pending"
            payment_method := (req.payment_method).getD "online"
            created_at := now
            updated_at := now
            completed_at := none }
        .created order
          { db with orders := db.orders ++ [order], coupons := coupons' }

/-! ### GET /api/orders/:id (`get_order_details`, lines 301–337) -/

/-- Outcome of `get_order_details`. The JSON response dereferences
`order.service.name`, so a dangling service reference would raise. -/
inductive OrderDetailsRes where
  | notAuthenticated            -- 401 Not authenticated
  | notFound                    -- 404 Order not found
  | forbidden                   -- 403 Unauthorized (customer, not the owner)
  | crash                       -- unhandled exception (HTTP 500)
  | ok (order : Order)          -- 200, full order payload
  deriving DecidableEq, Repr

/-- HTTP status of a `get_order_details` outcome. -/
def OrderDetailsRes.statusCode : OrderDetailsRes → Nat
  | .notAuthenticated => 401
  | .notFound => 404
  | .forbidden => 403
  | .crash => 500
  | .ok _ => 200

/-- Embeds `get_order_details` (app.py lines 301–337). -/
def get_order_details (db : DB) (sess : Option Session) (oid : Nat) :
    OrderDetailsRes :=
  match sess with
  | none => .notAuthenticated
  | some s =>
    match findOrder db.orders oid with
    | none => .notFound
    | some order =>
      if s.role = "customer" ∧ order.customer_id ≠ s.user_id then .forbidden
      else
        match findService db.services order.service_id with
        | none => .crash
        | some _ => .ok order

/-! ### POST /api/coupons/validate (`validate_coupon`, lines 339–370) -/

/-- Embeds `if coupon.usage_limit and coupon.usage_count >= coupon.usage_limit` —
Python truthiness: a `NULL` or `0` limit never exhausts. -/
def couponExhausted (c : Coupon) : Bool :=
  match c.usage_limit with
  | none => false
  | some l => l != 0 && c.usage_count ≥ l

/-- The 400 message for an order value below the coupon minimum:
`f'Minimum order value ₹{coupon.min_order_value} required'`. -/
def minOrderMsg (m : ℚ) : String :=
  "Minimum order value ₹" ++ toString m ++ " required"

/-- Outcome of `validate_coupon`. -/
inductive ValidateRes where
  | invalidCode                                        -- 404 Invalid coupon code
  | crash                                              -- NULL valid_until comparison
  | expired                                            -- 400 Coupon has expired
  | usageLimitReached                                  -- 400 usage limit reached
  | belowMin (msg : String)                            -- 400, names the minimum
  | ok (discount : ℚ) (dtype : String) (dvalue : ℚ)   -- 200 valid=true
  deriving DecidableEq, Repr

/-- HTTP status of a `validate_coupon` outcome. -/
def ValidateRes.statusCode : ValidateRes → Nat
  | .invalidCode => 404
  | .crash => 500
  | .expired => 400
  | .usageLimitReached => 400
  | .belowMin _ => 400
  | .ok _ _ _ => 200

/-- Embeds `validate_coupon` (app.py lines 339–370). `order_value` defaults to 0
when absent (`data.get('order_value', 0)`). -/
def validate_coupon (db : DB) (code : String) (order_value : Option ℚ)
    (now : Time) : ValidateRes :=
  match findCoupon db.coupons code with
  | none => .invalidCode
  | some c =>
    match c.valid_until with
    | none => .crash
    | some vu =>
      if vu < now then .expired
      else if couponExhausted c then .usageLimitReached
      else
        let ov := order_value.getD 0
        if ov < c.min_order_value then .belowMin (minOrderMsg c.min_order_value)
        else
          let discount :=
            if c.discount_type = "percentage" then
              applyCap c.max_discount (ov * (c.discount_value / 100))
            else c.discount_value
          .ok discount c.discount_type c.discount_value

/-! ### POST /api/auth/register (`register`, lines 138–167) -/

/-- Stand-in for werkzeug's `generate_password_hash`; no claim inspects
hashes, so the external library call is modelled as an abstract tagging. -/
def generate_password_hash (password : String) : String :=
  "pbkdf2:" ++ password

/-- Outcome of `register`: a conflict, or the new user together with the
updated store and the freshly established session. -/
inductive RegisterRes where
  | phoneRegistered                                  -- 400 already registered
  | created (user : User) (db : DB) (sess : Session) -- 201
  deriving DecidableEq, Repr

/-- Embeds `register` (app.py lines 138–167). The caller-supplied `role` is stored
verbatim, defaulting to `"customer"`; the session gets the new id and role. -/
def register (db : DB) (phone password : String) (name email : Option String)
    (role : Option String) (newId : Nat) (now : Time) : RegisterRes :=
  if (db.users.find? (fun u => u.phone == phone)).isSome then .phoneRegistered
  else
    let user : User :=
      { id := newId
        phone := phone
        name := name
        email := email
        password_hash := generate_password_hash password
        role := role.getD "customer"
        created_at := now }
    .created user { db with users := db.users ++ [user] }
      { user_id := user.id, role := user.role }

/-! ### POST /api/partner/register (`register_partner`, lines 376–403) -/

/-- JSON body of `POST /api/partner/register` (required fields are plain,
`gst_number` is `data.get(...)`). -/
structure PartnerRequest where
  business_name : String
  address : String
  city : String
  pincode : String
  gst_number : Option String
  bank_account : String
  ifsc_code : String
  deriving DecidableEq, Repr

/-- Outcome of `register_partner`. `user.role = 'partner'` on a missing user
row would raise, hence `crash`. -/
inductive RegisterPartnerRes where
  | notAuthenticated                      -- 401
  | crash                                 -- session user row missing
  | created (db : DB) (sess : Session)    -- 201, row inserted, role upgraded
  deriving DecidableEq, Repr

/-- Embeds `register_partner` (app.py lines 376–403): unconditionally inserts a new
`Partner` row for the session user (there is no check for an existing row),
sets the user's role to `"partner"` and refreshes the session role. -/
def register_partner (db : DB) (sess : Option Session) (req : PartnerRequest)
    (newId : Nat) (now : Time) : RegisterPartnerRes :=
  match sess with
  | none => .notAuthenticated
  | some s =>
    let partner : Partner :=
      { id := newId
        user_id := s.user_id
        business_name := req.business_name
        address := req.address
        city := req.city
        pincode := req.pincode
        gst_number := req.gst_number
        bank_account := req.bank_account
        ifsc_code := req.ifsc_code
        status := "pending"
        commission_rate := 20
        rating := 0
        total_orders := 0
        created_at := now }
    match findUser db.users s.user_id with
    | none => .crash
    | some _ =>
      let users' :=
        mapFirst (fun u => u.id == s.user_id) (fun u => { u with role := "partner" })
          db.users
      .created
        { db with users := users', partners := db.partners ++ [partner] }
        { s with role := "partner" }

/-! ### GET /api/partner/orders (`get_partner_orders`, lines 405–432) -/

/-- Insertion into a list already sorted by `created_at` descending. -/
def insertByCreatedDesc (o : Order) : List Order → List Order
  | [] => [o]
  | x :: xs =>
    if x.created_at ≤ o.created_at then o :: x :: xs
    else x :: insertByCreatedDesc o xs

/-- Embeds `order_by(Order.created_at.desc())`. -/
def sortByCreatedDesc : List Order → List Order
  | [] => []
  | x :: xs => insertByCreatedDesc x (sortByCreatedDesc xs)

/-- Outcome of `get_partner_orders`. -/
inductive PartnerOrdersRes where
  | forbidden                   -- 403 Unauthorized (no session OR wrong role)
  | profileNotFound             -- 404 Partner profile not found
  | ok (orders : List Order)    -- 200
  deriving DecidableEq, Repr

/-- HTTP status of a `get_partner_orders` outcome. -/
def PartnerOrdersRes.statusCode : PartnerOrdersRes → Nat
  | .forbidden => 403
  | .profileNotFound => 404
  | .ok _ => 200

/-- Embeds `get_partner_orders` (app.py lines 405–432). Note the single gate
`if 'user_id' not in session or session['role'] != 'partner'` returning 403
for a missing session as well as for a wrong role. -/
def get_partner_orders (db : DB) (sess : Option Session)
    (statusFilter : Option String) : PartnerOrdersRes :=
  match sess with
  | none => .forbidden
  | some s =>
    if s.role = "partner" then
      match findPartnerByUser db.partners s.user_id with
      | none => .profileNotFound
      | some p =>
        let q := db.orders.filter (fun o => o.partner_id == some p.id)
        let q :=
          match statusFilter with
          | none => q
          | some st => q.filter (fun o => o.status == st)
        .ok (sortByCreatedDesc q)
    else .forbidden

/-! ### PUT /api/partner/orders/:id/status (`update_order_status`,
lines 434–455) -/

/-- Outcome of `update_order_status`. With a `'partner'`-role session but no
`Partner` row, `order.partner_id != partner.id` dereferences `None`
(`AttributeError`), hence `crash` — but only after the order lookup, since
`not order` short-circuits first. -/
inductive UpdateStatusRes where
  | forbidden        -- 403 Unauthorized (no session OR wrong role)
  | notFound         -- 404 Order not found
  | crash            -- AttributeError on missing partner profile
  | ok (db : DB)     -- 200 Order status updated
  deriving DecidableEq, Repr

/-- HTTP status of an `update_order_status` outcome. -/
def UpdateStatusRes.statusCode : UpdateStatusRes → Nat
  | .forbidden => 403
  | .notFound => 404
  | .crash => 500
  | .ok _ => 200

/-- Embeds `update_order_status` (app.py lines 434–455). The order found by primary
key is mutated in place; on `status == 'delivered'` the handler also sets
`completed_at` and increments `total_orders` on the partner object found by
`filter_by(user_id=...)`. -/
def update_order_status (db : DB) (sess : Option Session) (oid : Nat)
    (newStatus : String) (now : Time) : UpdateStatusRes :=
  match sess with
  | none => .forbidden
  | some s =>
    if s.role = "partner" then
      match findOrder db.orders oid with
      | none => .notFound
      | some order =>
        match findPartnerByUser db.partners s.user_id with
        | none => .crash
        | some partner =>
          if order.partner_id = some partner.id then
            let order' : Order :=
              { order with
                status := newStatus
                updated_at := now
                completed_at :=
                  if newStatus = "delivered" then some now else order.completed_at }
            let orders' := mapFirst (fun o => o.id == oid) (fun _ => order') db.orders
            let partners' :=
              if newStatus = "delivered" then
                mapFirst (fun p => p.user_id == s.user_id)
                  (fun p => { p with total_orders := p.total_orders + 1 }) db.partners
              else db.partners
            .ok { db with orders := orders', partners := partners' }
          else .notFound
    else .forbidden

/-! ### GET /api/admin/orders (`get_all_orders`, lines 493–515) -/

/-- Outcome of `get_all_orders`. -/
inductive AdminOrdersRes where
  | forbidden                   -- 403 Unauthorized (no session OR wrong role)
  | ok (orders : List Order)    -- 200
  deriving DecidableEq, Repr

/-- HTTP status of a `get_all_orders` outcome. -/
def AdminOrdersRes.statusCode : AdminOrdersRes → Nat
  | .forbidden => 403
  | .ok _ => 200

/-- Embeds `get_all_orders` (app.py lines 493–515): admin gate, optional status
filter, newest first, capped at 100 rows. -/
def get_all_orders (db : DB) (sess : Option Session)
    (statusFilter : Option String) : AdminOrdersRes :=
  match sess with
  | none => .forbidden
  | some s =>
    if s.role = "admin" then
      let q :=
        match statusFilter with
        | none => db.orders
        | some st => db.orders.filter (fun o => o.status == st)
      .ok ((sortByCreatedDesc q).take 100)
    else .forbidden

/-! ## Fixtures used by witnesses and counterexamples -/

/-- A catalog service priced 299 (the seeded badminton restringing). -/
def svcStringing : Service :=
  { id := 1, name := "Badminton Restringing", category := "stringing"
    base_price := 299, description := "Professional badminton racquet restringing"
    image_url := none, is_active := true }

/-- A service priced 1000 (order value for the percentage-cap example). -/
def svcBig : Service :=
  { id := 2, name := "Premium Racquet Service", category := "repair"
    base_price := 1000, description := "Premium package", image_url := none
    is_active := true }

/-- A service priced 50 (order value for the negative-total example). -/
def svcSmall : Service :=
  { id := 3, name := "Grommet Fix", category := "repair", base_price := 50
    description := "Single grommet", image_url := none, is_active := true }

/-- A customer. -/
def userAsha : User :=
  { id := 1, phone := "9000000001", name := some "Asha", email := none
    password_hash := "pbkdf2:pw", role := "customer", created_at := 0 }

/-- A second customer. -/
def userBela : User :=
  { id := 2, phone := "9000000002", name := some "Bela", email := none
    password_hash := "pbkdf2:pw", role := "customer", created_at := 0 }

/-- A user whose role is `partner`, with a `Partner` row (`partnerRow`). -/
def userPart : User :=
  { id := 3, phone := "9000000003", name := some "Parth", email := none
    password_hash := "pbkdf2:pw", role := "partner", created_at := 0 }

/-- The `Partner` row of `userPart`. -/
def partnerRow : Partner :=
  { id := 1, user_id := 3, business_name := "Stringers Hub", address := "12 Lane"
    city := "Pune", pincode := "411001", gst_number := none
    bank_account := "000111", ifsc_code := "IFSC0001", status := "approved"
    commission_rate := 20, rating := 0, total_orders := 5, created_at := 0 }

/-- The seeded `FIRST50` coupon: 50% off capped at 200, valid until time 100. -/
def couponPct : Coupon :=
  { id := 1, code := "FIRST50", discount_type := "percentage"
    discount_value := 50, min_order_value := 0, max_discount := some 200
    valid_from := some 0, valid_until := some 100, usage_limit := some 100
    usage_count := 0, is_active := true }

/-- A fixed coupon worth 100, no cap, no minimum. -/
def couponFixed : Coupon :=
  { id := 2, code := "FLAT100", discount_type := "fixed", discount_value := 100
    min_order_value := 0, max_discount := none, valid_from := some 0
    valid_until := some 100, usage_limit := none, usage_count := 0
    is_active := true }

/-- A still-valid fixed coupon whose usage limit is already reached and whose
minimum order value (5000) is far above the small catalog prices. -/
def couponTight : Coupon :=
  { id := 3, code := "TIGHT10", discount_type := "fixed", discount_value := 10
    min_order_value := 5000, max_discount := none, valid_from := some 0
    valid_until := some 100, usage_limit := some 1, usage_count := 1
    is_active := true }

/-- An expired coupon (`valid_until` = −5, in the past for `now ≥ 0`). -/
def couponOld : Coupon :=
  { id := 4, code := "OLD", discount_type := "fixed", discount_value := 10
    min_order_value := 0, max_discount := none, valid_from := some (-10)
    valid_until := some (-5), usage_limit := none, usage_count := 0
    is_active := true }

/-- An assigned order of `userAsha`, handled by `partnerRow`. -/
def orderAsha : Order :=
  { id := 1, order_number := "PLR20260101AAA", customer_id := 1
    partner_id := some 1, service_id := 1, racquet_type := some "badminton"
    string_type := none, tension := none, pickup_address := some "7 Park Rd"
    pickup_slot := 20, base_price := 299, string_price := 0, discount := 0
    total_price := 299, status := "assigned", payment_status := "pending"
    payment_method := "online", created_at := 1, updated_at := 1
    completed_at := none }

/-- The store all witnesses and counterexamples run against. -/
def dbW : DB :=
  { users := [userAsha, userBela, userPart]
    partners := [partnerRow]
    services := [svcStringing, svcBig, svcSmall]
    orders := [orderAsha]
    coupons := [couponPct, couponFixed, couponTight, couponOld] }

/-- Session of `userAsha`. -/
def sessAsha : Session := { user_id := 1, role := "customer" }

/-- Session of `userPart` (role `partner`). -/
def sessPart : Session := { user_id := 3, role := "partner" }

/-- A request for service 1 with no extras and no coupon. -/
def reqPlain : OrderRequest :=
  { service_id := 1, racquet_type := none, string_type := none, tension := none
    pickup_address := none, pickup_slot := 30, string_price := none
    coupon_code := none, payment_method := none }

/-- Service 2 (price 1000) with the percentage coupon `FIRST50`. -/
def reqPct : OrderRequest := { reqPlain with service_id := 2, coupon_code := some "FIRST50" }

/-- Service 3 (price 50) with the fixed coupon `FLAT100`. -/
def reqFixed : OrderRequest := { reqPlain with service_id := 3, coupon_code := some "FLAT100" }

/-- Service 1 (price 299) with the exhausted/minimum-violating `TIGHT10`. -/
def reqTight : OrderRequest := { reqPlain with coupon_code := some "TIGHT10" }

/-- Fallback order for result projections. -/
def order0 : Order :=
  { id := 0, order_number := "", customer_id := 0, partner_id := none
    service_id := 0, racquet_type := none, string_type := none, tension := none
    pickup_address := none, pickup_slot := 0, base_price := 0, string_price := 0
    discount := 0, total_price := 0, status := "", payment_status := ""
    payment_method := "", created_at := 0, updated_at := 0, completed_at := none }

/-- The empty store. -/
def db0 : DB := { users := [], partners := [], services := [], orders := [], coupons := [] }

/-- Order component of a `created` result. -/
def createdOrder (r : CreateOrderRes) (d : Order) : Order :=
  match r with
  | .created o _ => o
  | _ => d

/-- Store component of a `created` result. -/
def createdDB (r : CreateOrderRes) (d : DB) : DB :=
  match r with
  | .created _ db => db
  | _ => d

/-- The concrete creation used by the C1 witness: `userAsha` orders service 1
with no coupon. -/
def resC1 : CreateOrderRes := create_order dbW (some sessAsha) reqPlain 5 "PLRW1" 2

/-- The order stored by `resC1`. -/
def oC1 : Order := createdOrder resC1 order0

/-- The store after `resC1`. -/
def dbC1 : DB := createdDB resC1 db0

/-- The concrete creation used by the C2 witness: `userAsha` orders service 1
(value 299) with coupon `TIGHT10`, whose usage limit is already reached and
whose minimum order value (5000) exceeds the order value. -/
def resC2 : CreateOrderRes := create_order dbW (some sessAsha) reqTight 5 "PLRW2" 2

/-- The order stored by `resC2`. -/
def oC2 : Order := createdOrder resC2 order0

/-- The store after `resC2`. -/
def dbC2 : DB := createdDB resC2 db0

/-- The concrete creation used by the C3 witness: service 2 (value 1000) with
the 50%-capped-at-200 coupon `FIRST50`. -/
def resC3 : CreateOrderRes := create_order dbW (some sessAsha) reqPct 5 "PLRW3" 2

/-- The order stored by `resC3`. -/
def oC3 : Order := createdOrder resC3 order0

/-- The store after `resC3`. -/
def dbC3 : DB := createdDB resC3 db0

/-- The concrete creation used by the C4 witness: service 3 (value 50) with
the fixed coupon `FLAT100`. -/
def resC4 : CreateOrderRes := create_order dbW (some sessAsha) reqFixed 5 "PLRW4" 2

/-- The order stored by `resC4`. -/
def oC4 : Order := createdOrder resC4 order0

/-- The store after `resC4`. -/
def dbC4 : DB := createdDB resC4 db0

/-- Result store of a successful status update. -/
def okDB (r : UpdateStatusRes) (d : DB) : DB :=
  match r with
  | .ok db => db
  | _ => d

/-- The store after `userPart` delivers order 1 once. -/
def dbC5a : DB := okDB (update_order_status dbW (some sessPart) 1 "delivered" 50) db0

/-- The store after `userPart` delivers order 1 a second time. -/
def dbC5b : DB := okDB (update_order_status dbC5a (some sessPart) 1 "delivered" 60) db0

/-- HTTP status of a `register_partner` outcome. -/
def RegisterPartnerRes.statusCode : RegisterPartnerRes → Nat
  | .notAuthenticated => 401
  | .crash => 500
  | .created _ _ => 201

/-- Session of `userBela` (customer, not the owner of order 1). -/
def sessBela : Session := { user_id := 2, role := "customer" }

/-- An admin session. -/
def sessAdmin : Session := { user_id := 99, role := "admin" }

/-- An active, unexpired, non-exhausted coupon with minimum order value 500. -/
def couponMin : Coupon :=
  { id := 5, code := "MIN500", discount_type := "fixed", discount_value := 50
    min_order_value := 500, max_discount := none, valid_from := some 0
    valid_until := some 100, usage_limit := some 10, usage_count := 3
    is_active := true }

/-- Store for the C8 witness. -/
def dbC8 : DB := { db0 with coupons := [couponMin] }

/-! ### C9: the User–Partner relationship -/

/-- Store component of a `register_partner` result. -/
def regPartnerDB (r : RegisterPartnerRes) (d : DB) : DB :=
  match r with
  | .created db _ => db
  | _ => d

/-- Session component of a `register_partner` result. -/
def regPartnerSess (r : RegisterPartnerRes) (d : Session) : Session :=
  match r with
  | .created _ s => s
  | _ => d

/-- A partner-registration body. -/
def partnerReq : PartnerRequest :=
  { business_name := "Side Biz", address := "1 Main St", city := "Pune"
    pincode := "411002", gst_number := none, bank_account := "000222"
    ifsc_code := "IFSC0002" }

/-- First partner registration by `userAsha`. -/
def resC9a : RegisterPartnerRes := register_partner dbW (some sessAsha) partnerReq 2 7

/-- Store after the first registration. -/
def dbC9a : DB := regPartnerDB resC9a db0

/-- Session after the first registration (role upgraded to partner). -/
def sessC9a : Session := regPartnerSess resC9a sessAsha

/-- Second partner registration by the same user. -/
def resC9b : RegisterPartnerRes := register_partner dbC9a (some sessC9a) partnerReq 3 8

/-- Store after the second registration. -/
def dbC9b : DB := regPartnerDB resC9b db0

/-! ### C10: partner-role session without a Partner row -/

/-- User component of a `register` result. -/
def regUser (r : RegisterRes) (d : User) : User :=
  match r with
  | .created u _ _ => u
  | _ => d

/-- Store component of a `register` result. -/
def regDB (r : RegisterRes) (d : DB) : DB :=
  match r with
  | .created _ db _ => db
  | _ => d

/-- Session component of a `register` result. -/
def regSess (r : RegisterRes) (d : Session) : Session :=
  match r with
  | .created _ _ s => s
  | _ => d

/-- The registration used by the C10 witness: a fresh phone registering with
the caller-chosen role "partner". -/
def resC10 : RegisterRes := register dbW "9000000009" "pw" none none (some "partner") 4 0

/-- The user created by `resC10`. -/
def userC10 : User := regUser resC10 userAsha

/-- The store after `resC10`. -/
def dbC10 : DB := regDB resC10 db0

/-- The session established by `resC10` (role "partner", user 4). -/
def sessC10 : Session := regSess resC10 sessAsha

/-! ## Generic lemmas about the query/mutation helpers -/

/-- Mutating the row found by a `find?` query: if the mutation preserves the
query predicate, the same query afterwards returns the mutated row. -/
theorem find?_mapFirst (p : α → Bool) (f : α → α) (l : List α) (x : α)
    (h : l.find? p = some x) (hf : p (f x) = true) :
    (mapFirst p f l).find? p = some (f x) := by
  induction l with
  | nil => simp at h
  | cons a l ih =>
    by_cases ha : p a = true
    · rw [List.find?_cons_of_pos _ ha] at h
      injection h with h
      subst h
      simp [mapFirst, ha, List.find?_cons_of_pos _ hf]
    · rw [List.find?_cons_of_neg _ (by simpa using ha)] at h
      simp [mapFirst, ha, List.find?_cons_of_neg _ (by simpa using ha), ih h]

/-- Running `couponStep` with no coupon code yields discount 0 and no table change. -/
theorem couponStep_none (cs : List Coupon) (b sp : ℚ) (now : Time) :
    couponStep cs none b sp now = some (0, cs) := rfl

/-- Running `couponStep` with a code that matches no active coupon yields discount 0. -/
theorem couponStep_find_none (cs : List Coupon) (code : String) (b sp : ℚ)
    (now : Time) (h : findCoupon cs code = none) :
    couponStep cs (some code) b sp now = some (0, cs) := by
  by_cases hc : code = "" <;> simp [couponStep, hc, h]

/-- Running `couponStep` with an active coupon whose `valid_until` is not in the
future yields discount 0 and no table change. -/
theorem couponStep_stale (cs : List Coupon) (code : String) (b sp : ℚ)
    (now : Time) (c : Coupon) (vu : Time) (hf : findCoupon cs code = some c)
    (hvu : c.valid_until = some vu) (hnow : ¬ now < vu) :
    couponStep cs (some code) b sp now = some (0, cs) := by
  by_cases hc : code = "" <;> simp [couponStep, hc, hf, hvu, hnow]

/-- Running `couponStep` with an applicable coupon (active, `valid_until` in the
future): discount as computed, usage count incremented. -/
theorem couponStep_valid (cs : List Coupon) (code : String) (b sp : ℚ)
    (now : Time) (c : Coupon) (vu : Time) (hc : code ≠ "")
    (hf : findCoupon cs code = some c) (hvu : c.valid_until = some vu)
    (hnow : now < vu) :
    couponStep cs (some code) b sp now
      = some (computeDiscount c b sp, incCouponUsage cs code) := by
  simp [couponStep, hc, hf, hvu, hnow]

/-! ## Claims -/

/-- C1. For every order created via POST /api/orders, the stored total_price
equals base_price + string_price − discount, where base_price is the
referenced service's base price, string_price is the request's string_price
(0 if absent), and discount is 0 whenever no coupon_code is supplied or the
named coupon is not active (no active coupon row has that code) or its
valid_until is not in the future. -/
theorem create_order_total_invariant (db : DB) (sess : Option Session)
    (req : OrderRequest) (now : Time) (orderNumber : String) (newId : Nat)
    (o : Order) (db' : DB)
    (h : create_order db sess req now orderNumber newId = .created o db') :
    o.total_price = o.base_price + o.string_price - o.discount
    ∧ (∀ svc, findService db.services req.service_id = some svc →
        o.base_price = svc.base_price)
    ∧ o.string_price = (req.string_price).getD 0
    ∧ (req.coupon_code = none → o.discount = 0)
    ∧ (∀ code, req.coupon_code = some code →
        findCoupon db.coupons code = none → o.discount = 0)
    ∧ (∀ code c vu, req.coupon_code = some code →
        findCoupon db.coupons code = some c → c.valid_until = some vu →
        ¬ now < vu → o.discount = 0) := by
  simp only [create_order] at h
  split at h
  · exact CreateOrderRes.noConfusion h
  case _ s =>
  split at h
  · exact CreateOrderRes.noConfusion h
  case _ svc hsvc =>
  split at h
  · exact CreateOrderRes.noConfusion h
  case _ pair d cs' hcs =>
  injection h with ho hdb
  subst ho
  refine ⟨rfl, ?_, rfl, ?_, ?_, ?_⟩
  · intro svc' hsvc'
    rw [hsvc] at hsvc'
    injection hsvc' with hsvc'
    rw [hsvc']
  · intro hcc
    rw [hcc, couponStep_none] at hcs
    injection hcs with hcs
    have : d = 0 := congrArg Prod.fst hcs.symm
    simp [this]
  · intro code hcc hfind
    rw [hcc, couponStep_find_none _ _ _ _ _ hfind] at hcs
    injection hcs with hcs
    have : d = 0 := congrArg Prod.fst hcs.symm
    simp [this]
  · intro code c vu hcc hfind hvu hnow
    rw [hcc, couponStep_stale _ _ _ _ _ c vu hfind hvu hnow] at hcs
    injection hcs with hcs
    have : d = 0 := congrArg Prod.fst hcs.symm
    simp [this]

/-- Witness for C1 at a concrete creation: the stored total satisfies the
pricing identity and the couponless discount is 0. -/
theorem create_order_total_invariant_witness :
    oC1.total_price = oC1.base_price + oC1.string_price - oC1.discount
    ∧ oC1.discount = 0 := by
  have h := create_order_total_invariant dbW (some sessAsha) reqPlain 5 "PLRW1" 2
    oC1 dbC1 rfl
  exact ⟨h.1, h.2.2.2.1 rfl⟩

/-- Re-querying a coupon after its in-place usage increment. -/
theorem findCoupon_incCouponUsage (cs : List Coupon) (code : String) (c : Coupon)
    (h : findCoupon cs code = some c) :
    findCoupon (incCouponUsage cs code) code
      = some { c with usage_count := c.usage_count + 1 } := by
  refine find?_mapFirst _ _ _ _ h ?_
  simpa using List.find?_some h

/-- C2. During order creation, whenever a supplied coupon is active and its
valid_until is in the future, the coupon's usage_count is incremented by 1 —
with no hypothesis about `usage_limit` or `min_order_value`, the rules the
standalone validator would enforce. -/
theorem create_order_increments_usage (db : DB) (s : Session)
    (req : OrderRequest) (now : Time) (orderNumber : String) (newId : Nat)
    (code : String) (c : Coupon) (vu : Time) (o : Order) (db' : DB)
    (hcc : req.coupon_code = some code) (hne : code ≠ "")
    (hfind : findCoupon db.coupons code = some c)
    (hvu : c.valid_until = some vu) (hnow : now < vu)
    (h : create_order db (some s) req now orderNumber newId = .created o db') :
    findCoupon db'.coupons code
      = some { c with usage_count := c.usage_count + 1 } := by
  simp only [create_order] at h
  split at h
  · exact CreateOrderRes.noConfusion h
  case _ svc hsvc =>
  split at h
  · exact CreateOrderRes.noConfusion h
  case _ pair d cs' hcs =>
  rw [hcc, couponStep_valid _ _ _ _ _ c vu hne hfind hvu hnow] at hcs
  injection hcs with hcs
  have hcs' : cs' = incCouponUsage db.coupons code := congrArg Prod.snd hcs.symm
  injection h with ho hdb
  rw [← hdb, hcs']
  exact findCoupon_incCouponUsage _ _ _ hfind

/-- Witness for C2: `TIGHT10` is exhausted and the order value is below its
minimum, yet its usage count still goes from 1 to 2. -/
theorem create_order_increments_usage_witness :
    findCoupon dbC2.coupons "TIGHT10"
      = some { couponTight with usage_count := couponTight.usage_count + 1 }
    ∧ couponExhausted couponTight = true
    ∧ oC2.base_price + oC2.string_price < couponTight.min_order_value := by
  have h := create_order_increments_usage dbW sessAsha reqTight 5 "PLRW2" 2
    "TIGHT10" couponTight 100 oC2 dbC2 rfl (by decide) rfl rfl (by decide) rfl
  refine ⟨h, by decide, ?_⟩
  have hb : oC2.base_price = 299 := rfl
  have hs : oC2.string_price = 0 := rfl
  have hm : couponTight.min_order_value = 5000 := rfl
  rw [hb, hs, hm]
  norm_num

/-- C3. For every order creation with a valid percentage-type coupon, the
discount equals (base_price + string_price) × discount_value/100, capped at
max_discount when max_discount is set (non-null and, per Python truthiness,
non-zero). -/
theorem create_order_percentage_discount (db : DB) (s : Session)
    (req : OrderRequest) (now : Time) (orderNumber : String) (newId : Nat)
    (code : String) (c : Coupon) (vu : Time) (o : Order) (db' : DB)
    (hcc : req.coupon_code = some code) (hne : code ≠ "")
    (hfind : findCoupon db.coupons code = some c)
    (hvu : c.valid_until = some vu) (hnow : now < vu)
    (hpct : c.discount_type = "percentage")
    (h : create_order db (some s) req now orderNumber newId = .created o db') :
    (c.max_discount = none →
      o.discount = (o.base_price + o.string_price) * (c.discount_value / 100))
    ∧ (∀ m, c.max_discount = some m → m ≠ 0 →
      o.discount
        = min ((o.base_price + o.string_price) * (c.discount_value / 100)) m) := by
  simp only [create_order] at h
  split at h
  · exact CreateOrderRes.noConfusion h
  case _ svc hsvc =>
  split at h
  · exact CreateOrderRes.noConfusion h
  case _ pair d cs' hcs =>
  rw [hcc, couponStep_valid _ _ _ _ _ c vu hne hfind hvu hnow] at hcs
  injection hcs with hcs
  have hd : d = computeDiscount c svc.base_price (req.string_price.getD 0) :=
    congrArg Prod.fst hcs.symm
  injection h with ho hdb
  subst ho
  constructor
  · intro hmd
    simp [hd, computeDiscount, applyCap, hpct, hmd]
  · intro m hmd hm
    simp [hd, computeDiscount, applyCap, hpct, hmd, hm]

/-- Witness for C3: discount_value=50, max_discount=200 on order value 1000
gives the capped discount 200, not 500. -/
theorem create_order_percentage_discount_witness :
    oC3.discount
      = min ((oC3.base_price + oC3.string_price) * (couponPct.discount_value / 100)) 200
    ∧ oC3.discount = 200
    ∧ (oC3.base_price + oC3.string_price) * (couponPct.discount_value / 100) = 500 := by
  have h := create_order_percentage_discount dbW sessAsha reqPct 5 "PLRW3" 2
    "FIRST50" couponPct 100 oC3 dbC3 rfl (by decide) rfl rfl (by decide) rfl rfl
  have h2 := h.2 200 rfl (by norm_num)
  have hb : oC3.base_price = 1000 := rfl
  have hs : oC3.string_price = 0 := rfl
  have hv : couponPct.discount_value = 50 := rfl
  have hraw : (oC3.base_price + oC3.string_price) * (couponPct.discount_value / 100) = 500 := by
    rw [hb, hs, hv]; norm_num
  refine ⟨h2, ?_, hraw⟩
  rw [h2, hraw]
  exact (rfl : min (500 : ℚ) 200 = 200)

/-- C4. For every order creation with a valid fixed-type coupon, the discount
equals the coupon's discount_value with no cap and no bound by the order
value, so total_price = base + string − discount_value and can be negative. -/
theorem create_order_fixed_discount (db : DB) (s : Session)
    (req : OrderRequest) (now : Time) (orderNumber : String) (newId : Nat)
    (code : String) (c : Coupon) (vu : Time) (o : Order) (db' : DB)
    (hcc : req.coupon_code = some code) (hne : code ≠ "")
    (hfind : findCoupon db.coupons code = some c)
    (hvu : c.valid_until = some vu) (hnow : now < vu)
    (hfix : c.discount_type = "fixed")
    (h : create_order db (some s) req now orderNumber newId = .created o db') :
    o.discount = c.discount_value
    ∧ o.total_price = o.base_price + o.string_price - c.discount_value := by
  simp only [create_order] at h
  split at h
  · exact CreateOrderRes.noConfusion h
  case _ svc hsvc =>
  split at h
  · exact CreateOrderRes.noConfusion h
  case _ pair d cs' hcs =>
  rw [hcc, couponStep_valid _ _ _ _ _ c vu hne hfind hvu hnow] at hcs
  injection hcs with hcs
  have hd : d = computeDiscount c svc.base_price (req.string_price.getD 0) :=
    congrArg Prod.fst hcs.symm
  injection h with ho hdb
  subst ho
  have : d = c.discount_value := by simp [hd, computeDiscount, hfix]
  exact ⟨this, by simp [this]⟩

/-- Witness for C4: a fixed coupon of value 100 on an order value of 50 gives
discount 100 and total_price −50. -/
theorem create_order_fixed_discount_witness :
    oC4.discount = couponFixed.discount_value
    ∧ oC4.total_price = oC4.base_price + oC4.string_price - couponFixed.discount_value
    ∧ oC4.discount = 100 ∧ oC4.total_price = -50 := by
  have h := create_order_fixed_discount dbW sessAsha reqFixed 5 "PLRW4" 2
    "FLAT100" couponFixed 100 oC4 dbC4 rfl (by decide) rfl rfl (by decide) rfl rfl
  have hb : oC4.base_price = 50 := rfl
  have hs : oC4.string_price = 0 := rfl
  have hv : couponFixed.discount_value = 100 := rfl
  refine ⟨h.1, h.2, ?_, ?_⟩
  · rw [h.1, hv]
  · rw [h.2, hb, hs, hv]; norm_num

/-- C5. Setting an assigned order's status to "delivered" sets its
completed_at to the current time and increments the partner's total_orders by
exactly 1 per transition; the increment is not idempotent — performing the
delivered transition twice increments total_orders twice. -/
theorem delivered_increments_partner_orders (db : DB) (uid oid : Nat)
    (now now2 : Time) (o : Order) (p : Partner)
    (ho : findOrder db.orders oid = some o)
    (hp : findPartnerByUser db.partners uid = some p)
    (hassign : o.partner_id = some p.id) :
    ∃ db',
      update_order_status db (some ⟨uid, "partner"⟩) oid "delivered" now = .ok db'
      ∧ findOrder db'.orders oid
          = some { o with status := "delivered", updated_at := now,
                          completed_at := some now }
      ∧ findPartnerByUser db'.partners uid
          = some { p with total_orders := p.total_orders + 1 }
      ∧ ∃ db'',
          update_order_status db' (some ⟨uid, "partner"⟩) oid "delivered" now2
            = .ok db''
          ∧ findPartnerByUser db''.partners uid
              = some { p with total_orders := p.total_orders + 2 } := by
  have ho0 : db.orders.find? (fun x => x.id == oid) = some o := ho
  have hp0 : db.partners.find? (fun x => x.user_id == uid) = some p := hp
  have hoid : (o.id == oid) = true := by simpa using List.find?_some ho0
  have huid : (p.user_id == uid) = true := by simpa using List.find?_some hp0
  have step : ∀ (d : DB) (o1 : Order) (p1 : Partner) (t : Time),
      findOrder d.orders oid = some o1 →
      findPartnerByUser d.partners uid = some p1 →
      o1.partner_id = some p1.id → (o1.id == oid) = true →
      (p1.user_id == uid) = true →
      update_order_status d (some ⟨uid, "partner"⟩) oid "delivered" t
        = .ok { d with
                orders := mapFirst (fun x => x.id == oid)
                  (fun _ => { o1 with status := "delivered", updated_at := t,
                                      completed_at := some t }) d.orders
                partners := mapFirst (fun x => x.user_id == uid)
                  (fun x => { x with total_orders := x.total_orders + 1 })
                  d.partners } := by
    intro d o1 p1 t ho1 hp1 ha1 _ _
    simp [update_order_status, ho1, hp1, ha1]
  refine ⟨_, step db o p now ho hp hassign hoid huid, ?_, ?_, ?_⟩
  · exact find?_mapFirst _ _ _ _ ho0 (by simpa using hoid)
  · exact find?_mapFirst _ _ _ _ hp0 (by simpa using huid)
  · have ho' := find?_mapFirst (fun x => x.id == oid)
      (fun _ => { o with status := "delivered", updated_at := now,
                         completed_at := some now }) db.orders o ho0
      (by simpa using hoid)
    have hp' := find?_mapFirst (fun x => x.user_id == uid)
      (fun x => { x with total_orders := x.total_orders + 1 }) db.partners p hp0
      (by simpa using huid)
    refine ⟨_, step _ _ _ now2 ho' hp' hassign (by simpa using hoid)
      (by simpa using huid), ?_⟩
    exact find?_mapFirst _ _ _ _ hp' (by simpa using huid)

/-- Witness for C5: delivering order 1 sets completed_at and takes
`partnerRow.total_orders` from 5 to 6; delivering again takes it to 7. -/
theorem delivered_increments_partner_orders_witness :
    update_order_status dbW (some sessPart) 1 "delivered" 50 = .ok dbC5a
    ∧ findOrder dbC5a.orders 1
        = some { orderAsha with status := "delivered", updated_at := 50,
                                completed_at := some 50 }
    ∧ findPartnerByUser dbC5a.partners 3
        = some { partnerRow with total_orders := partnerRow.total_orders + 1 }
    ∧ update_order_status dbC5a (some sessPart) 1 "delivered" 60 = .ok dbC5b
    ∧ findPartnerByUser dbC5b.partners 3
        = some { partnerRow with total_orders := partnerRow.total_orders + 2 } := by
  obtain ⟨db', h1, h2, h3, db'', h4, h5⟩ :=
    delivered_increments_partner_orders dbW 3 1 50 60 orderAsha partnerRow rfl rfl rfl
  have e1 : dbC5a = db' := by
    show okDB (update_order_status dbW (some sessPart) 1 "delivered" 50) db0 = db'
    rw [show update_order_status dbW (some sessPart) 1 "delivered" 50
          = .ok db' from h1]
    rfl
  subst e1
  have e2 : dbC5b = db'' := by
    show okDB (update_order_status dbC5a (some sessPart) 1 "delivered" 60) db0 = db''
    rw [show update_order_status dbC5a (some sessPart) 1 "delivered" 60
          = .ok db'' from h4]
    rfl
  subst e2
  exact ⟨h1, h2, h3, h4, h5⟩

/-- C6 counterexample: with no session at all, the partner and admin order
endpoints answer 403 (their single gate `if 'user_id' not in session or
session['role'] != ...` returns `Unauthorized`, 403), not the 401 the claim
requires for sessionless requests on every role-gated endpoint. -/
theorem auth_distinction_counterexample :
    (get_partner_orders dbW none none).statusCode = 403
    ∧ (get_all_orders dbW none none).statusCode = 403
    ∧ (update_order_status dbW none 1 "delivered" 50).statusCode = 403
    ∧ (403 : Nat) ≠ 401 := by decide

/-- C6 (amended). Endpoints gated only on authentication (order creation,
order detail, partner registration) answer 401 when no session is present;
the partner- and admin-role-gated endpoints answer 403 both when no session
is present and when the session's role is wrong. -/
theorem auth_status_codes (db : DB) (s : Session) (req : OrderRequest)
    (preq : PartnerRequest) (now now2 : Time) (orderNumber : String)
    (newId oid : Nat) (sf : Option String) (st : String) :
    (create_order db none req now orderNumber newId).statusCode = 401
    ∧ (get_order_details db none oid).statusCode = 401
    ∧ (register_partner db none preq newId now).statusCode = 401
    ∧ (get_partner_orders db none sf).statusCode = 403
    ∧ (s.role ≠ "partner" → (get_partner_orders db (some s) sf).statusCode = 403)
    ∧ (update_order_status db none oid st now2).statusCode = 403
    ∧ (s.role ≠ "partner" →
        (update_order_status db (some s) oid st now2).statusCode = 403)
    ∧ (get_all_orders db none sf).statusCode = 403
    ∧ (s.role ≠ "admin" → (get_all_orders db (some s) sf).statusCode = 403) := by
  refine ⟨rfl, rfl, rfl, rfl, ?_, rfl, ?_, rfl, ?_⟩
  · intro h
    simp [get_partner_orders, h, PartnerOrdersRes.statusCode]
  · intro h
    simp [update_order_status, h, UpdateStatusRes.statusCode]
  · intro h
    simp [get_all_orders, h, AdminOrdersRes.statusCode]

/-- Witness for the amended C6 at concrete inputs: a customer-role session
against the partner and admin gates, and sessionless requests throughout. -/
theorem auth_status_codes_witness :
    (create_order dbW none reqPlain 5 "PLRW6" 2).statusCode = 401
    ∧ (get_order_details dbW none 1).statusCode = 401
    ∧ (get_partner_orders dbW none none).statusCode = 403
    ∧ (get_partner_orders dbW (some sessAsha) none).statusCode = 403
    ∧ (update_order_status dbW (some sessAsha) 1 "delivered" 50).statusCode = 403
    ∧ (get_all_orders dbW (some sessAsha) none).statusCode = 403 := by
  have h := auth_status_codes dbW sessAsha reqPlain
    { business_name := "B", address := "A", city := "C", pincode := "P"
      gst_number := none, bank_account := "K", ifsc_code := "I" }
    5 50 "PLRW6" 2 1 none "delivered"
  exact ⟨h.1, h.2.1, h.2.2.2.1, h.2.2.2.2.1 (by decide),
    h.2.2.2.2.2.2.1 (by decide), h.2.2.2.2.2.2.2.2 (by decide)⟩

/-- C7. Order detail access: a customer session that does not own the order
gets 403; a partner or admin session gets the order regardless of ownership
or assignment. -/
theorem order_details_access (db : DB) (s : Session) (oid : Nat) (o : Order)
    (svc : Service) (ho : findOrder db.orders oid = some o)
    (hsvc : findService db.services o.service_id = some svc) :
    (s.role = "customer" → o.customer_id ≠ s.user_id →
      get_order_details db (some s) oid = .forbidden)
    ∧ (s.role = "partner" ∨ s.role = "admin" →
      get_order_details db (some s) oid = .ok o) := by
  constructor
  · intro hrole hown
    simp [get_order_details, ho, hrole, hown]
  · intro hrole
    have hne : ¬ (s.role = "customer" ∧ o.customer_id ≠ s.user_id) := by
      rcases hrole with h | h <;> simp [h]
    simp [get_order_details, ho, hne, hsvc]

/-- Witness for C7: customer Bela is refused order 1 (owned by Asha, 403);
the partner and an admin both receive it, although the partner check never
looks at the assignment and the admin owns nothing. -/
theorem order_details_access_witness :
    get_order_details dbW (some sessBela) 1 = .forbidden
    ∧ get_order_details dbW (some sessPart) 1 = .ok orderAsha
    ∧ get_order_details dbW (some sessAdmin) 1 = .ok orderAsha := by
  refine ⟨?_, ?_, ?_⟩
  · exact (order_details_access dbW sessBela 1 orderAsha svcStringing rfl rfl).1
      rfl (by decide)
  · exact (order_details_access dbW sessPart 1 orderAsha svcStringing rfl rfl).2
      (Or.inl rfl)
  · exact (order_details_access dbW sessAdmin 1 orderAsha svcStringing rfl rfl).2
      (Or.inr rfl)

/-- C8. For a request to POST /api/coupons/validate naming an active,
unexpired, non-exhausted coupon: an order_value below min_order_value gets a
400 whose message names the minimum required value; otherwise a 200 with
valid=true and the computed discount. -/
theorem validate_coupon_min_order (db : DB) (code : String) (ov : Option ℚ)
    (now : Time) (c : Coupon) (vu : Time)
    (hf : findCoupon db.coupons code = some c)
    (hvu : c.valid_until = some vu) (hexp : ¬ vu < now)
    (hlim : couponExhausted c = false) :
    (ov.getD 0 < c.min_order_value →
      validate_coupon db code ov now = .belowMin (minOrderMsg c.min_order_value)
      ∧ (validate_coupon db code ov now).statusCode = 400)
    ∧ (¬ ov.getD 0 < c.min_order_value →
      validate_coupon db code ov now
        = .ok (if c.discount_type = "percentage"
                then applyCap c.max_discount (ov.getD 0 * (c.discount_value / 100))
                else c.discount_value) c.discount_type c.discount_value
      ∧ (validate_coupon db code ov now).statusCode = 200) := by
  constructor
  · intro hmin
    have h : validate_coupon db code ov now
        = .belowMin (minOrderMsg c.min_order_value) := by
      simp [validate_coupon, hf, hvu, hexp, hlim, hmin]
    exact ⟨h, by rw [h]; rfl⟩
  · intro hmin
    have h : validate_coupon db code ov now
        = .ok (if c.discount_type = "percentage"
                then applyCap c.max_discount (ov.getD 0 * (c.discount_value / 100))
                else c.discount_value) c.discount_type c.discount_value := by
      simp [validate_coupon, hf, hvu, hexp, hlim, hmin]
    exact ⟨h, by rw [h]; rfl⟩

/-- Witness for C8: order value 100 against minimum 500 gets the 400 message
naming 500; order value 600 gets 200 with the discount. -/
theorem validate_coupon_min_order_witness :
    validate_coupon dbC8 "MIN500" (some 100) 5 = .belowMin (minOrderMsg 500)
    ∧ (validate_coupon dbC8 "MIN500" (some 100) 5).statusCode = 400
    ∧ validate_coupon dbC8 "MIN500" (some 600) 5 = .ok 50 "fixed" 50
    ∧ (validate_coupon dbC8 "MIN500" (some 600) 5).statusCode = 200 := by
  have h1 := (validate_coupon_min_order dbC8 "MIN500" (some 100) 5 couponMin 100
    rfl rfl (by decide) rfl).1 (by show (100 : ℚ) < 500; norm_num)
  have h2 := (validate_coupon_min_order dbC8 "MIN500" (some 600) 5 couponMin 100
    rfl rfl (by decide) rfl).2 (by show ¬ (600 : ℚ) < 500; norm_num)
  exact ⟨h1.1, h1.2, h2.1, h2.2⟩

/-- C9 counterexample: two successive calls to partner registration by the
same authenticated user (`userAsha`, user_id 1) leave two Partner rows with
user_id 1, so a User is not referenced by at most one Partner row. -/
theorem partner_at_most_one_counterexample :
    resC9a = .created dbC9a sessC9a
    ∧ resC9b = .created dbC9b { sessC9a with role := "partner" }
    ∧ dbC9a.partners.countP (fun p => p.user_id == 1) = 1
    ∧ dbC9b.partners.countP (fun p => p.user_id == 1) = 2 := by
  refine ⟨rfl, rfl, ?_, ?_⟩ <;> decide

/-- C9 (amended). Partner registration never checks for an existing Partner
row: every successful call by an authenticated user whose user row exists
adds one more Partner row with that user's id, so a User can come to be
referenced by arbitrarily many Partner rows (User 1—N Partner). -/
theorem register_partner_adds_row (db : DB) (s : Session) (req : PartnerRequest)
    (newId : Nat) (now : Time) (u : User) (db' : DB) (s' : Session)
    (hu : findUser db.users s.user_id = some u)
    (h : register_partner db (some s) req newId now = .created db' s') :
    db'.partners.countP (fun p => p.user_id == s.user_id)
      = db.partners.countP (fun p => p.user_id == s.user_id) + 1 := by
  simp only [register_partner, hu] at h
  injection h with hdb hsess
  rw [← hdb]
  simp [List.countP_append, List.countP_cons]

/-- Witness for the amended C9: the first registration takes the count of
Partner rows for user 1 in `dbW` from 0 to 1 (and the second, from
`partner_at_most_one_counterexample`, takes it to 2). -/
theorem register_partner_adds_row_witness :
    dbC9a.partners.countP (fun p => p.user_id == sessAsha.user_id)
      = dbW.partners.countP (fun p => p.user_id == sessAsha.user_id) + 1 :=
  register_partner_adds_row dbW sessAsha partnerReq 2 7 userAsha dbC9a sessC9a
    rfl rfl

/-- C10. The status-update handler is not total at its public interface:
with a session whose role is 'partner' but no Partner row for the user, the
handler crashes (unhandled `AttributeError` on `partner.id`) on any existing
order instead of answering a structured JSON error — and such sessions are
reachable, since `register` stores any caller-chosen role, adds no Partner
row and puts the role in the session. -/
theorem partner_without_profile_crashes (db dbr : DB) (s : Session)
    (oid : Nat) (st : String) (now : Time) (o : Order)
    (phone pwd : String) (nm em : Option String) (newId : Nat) (now0 : Time)
    (u : User) (db2 : DB) (s2 : Session)
    (hrole : s.role = "partner")
    (hnop : findPartnerByUser db.partners s.user_id = none)
    (ho : findOrder db.orders oid = some o)
    (hreg : register dbr phone pwd nm em (some "partner") newId now0
      = .created u db2 s2) :
    update_order_status db (some s) oid st now = .crash
    ∧ s2.role = "partner" ∧ db2.partners = dbr.partners := by
  refine ⟨by simp [update_order_status, hrole, ho, hnop], ?_, ?_⟩ <;>
  · simp only [register] at hreg
    split at hreg
    · exact RegisterRes.noConfusion hreg
    · injection hreg with hu hdb hs
      first
      | (rw [← hs]; rfl)
      | (rw [← hdb])

/-- Witness for C10: right after that registration there is no Partner row
for user 4, and the status update on existing order 1 crashes. -/
theorem partner_without_profile_crashes_witness :
    update_order_status dbC10 (some sessC10) 1 "picked_up" 50 = .crash
    ∧ sessC10.role = "partner" ∧ dbC10.partners = dbW.partners := by
  exact partner_without_profile_crashes dbC10 dbW sessC10 1 "picked_up" 50
    orderAsha "9000000009" "pw" none none 4 0 userC10 dbC10 sessC10
    rfl rfl rfl rfl

end Playready

